import Mathlib

/-!
Shallow embedding of the Backstage search-react presentation components
(`plugins/search-react/src/extension.tsx`,
`plugins/search-react/src/components/SearchResultGroup/SearchResultGroup.tsx`)
and of the Azure Functions entity-overview widget, together with theorems
about their behaviour.

JavaScript values are modelled as follows: optional values become `Option`,
JS string truthiness (`""` is falsy) is made explicit where the source relies
on it, external React element trees become small inductive "rendered" types,
and opaque child render functions or components are identified by `Nat` ids.
-/

namespace BackstageSearch

/-- A search result document (`IndexableDocument` from plugin-search-common):
only the fields this code touches are modelled. -/
structure IndexableDocument where
  title : String := ""
  text : String := ""
  location : String := ""
deriving Repr, DecidableEq

/-- A search result (`Result<IndexableDocument>`): a document plus optional
rank and highlight metadata. The highlight payload is opaque to this code, so
it is modelled as a string. -/
structure SearchResultItem where
  rank : Option Nat := none
  highlight : Option String := none
  document : IndexableDocument
deriving Repr, DecidableEq

/-- A result set (`SearchResultSet`): the ordered results plus page cursors. -/
structure SearchResultSet where
  results : List SearchResultItem
  nextPageCursor : Option String := none
  previousPageCursor : Option String := none
deriving Repr, DecidableEq

/-- The `AsyncState` record produced by the data-fetching layer: loading flag,
optional error (identified by a `Nat` id, since `Error` objects are opaque
here) and optional result-set value. -/
structure AsyncState where
  loading : Bool := false
  error : Option Nat := none
  value : Option SearchResultSet := none
deriving Repr, DecidableEq

/-- A `Partial<SearchQuery>`: every field optional, as consumed by this code
(term, types, filters, pageCursor). Filter values are modelled as strings. -/
structure SearchQuery where
  term : Option String := none
  types : Option (List String) := none
  filters : Option (List (String × String)) := none
  pageCursor : Option String := none
deriving Repr, DecidableEq

/- ----------------------------------------------------------------
   extension.tsx
   ---------------------------------------------------------------- -/

/-- The props carried by a child element: its `onClick` / `onKeyDown` handlers
(opaque, identified by `Nat`) and the remaining props as key/value pairs,
mirroring `const { onClick, onKeyDown, ...rest } = element.props`. -/
structure ElementProps where
  onClick : Option Nat := none
  onKeyDown : Option Nat := none
  rest : List (String × String) := []
deriving Repr, DecidableEq

/-- The component data stored under the `search.results.list.items.extensions.v1`
key: the extension component (opaque id) and its predicate. The predicate is
`Option`al because `findSearchResultListItemExtensionElement` guards it with
optional chaining (`predicate?.(result)`). -/
structure ExtensionData where
  componentId : Nat
  predicate : Option (SearchResultItem → Bool)

/-- A React child node as seen by `findSearchResultListItemExtensionElement`:
either a non-element node (text, for which `isValidElement` is false), or an
element with props and possibly attached extension component data
(`getComponentData` returns `none` when the key is absent). -/
inductive ReactNode where
  | text (s : String)
  | element (props : ElementProps) (data : Option ExtensionData)

/-- The output of the extension rendering code paths. `extensionItem` is the
clickable wrapper div produced by `findSearchResultListItemExtensionElement`
around `createElement(component, { rank, highlight, result, ...rest })`;
`defaultResultListItem` is the `DefaultResultListItem` fallback; `null` is the
JS `null` element. -/
inductive Rendered where
  | null
  | extensionItem (onClick : Option Nat) (onKeyDown : Option Nat)
      (componentId : Nat) (rank : Option Nat) (highlight : Option String)
      (result : IndexableDocument) (rest : List (String × String))
  | defaultResultListItem (rank : Option Nat) (highlight : Option String)
      (result : IndexableDocument)

/-- Whether a rendered value is the JS `null` element. -/
def Rendered.isNull : Rendered → Bool
  | .null => true
  | _ => false

/-- Embedding of `findSearchResultListItemExtensionElement`: walk the child
elements in order; skip non-elements, elements without the extension component
data, and elements whose predicate is absent or rejects the result; return the
wrapper div around the first accepted element's component, or `none` (JS
`null`) when no element qualifies. -/
def findSearchResultListItemExtensionElement :
    List ReactNode → SearchResultItem → Option Rendered
  | [], _ => none
  | node :: rest, result =>
    match node with
    | .text _ => findSearchResultListItemExtensionElement rest result
    | .element props data =>
      match data with
      | none => findSearchResultListItemExtensionElement rest result
      | some d =>
        match d.predicate with
        | none => findSearchResultListItemExtensionElement rest result
        | some p =>
          if p result then
            some (.extensionItem props.onClick props.onKeyDown d.componentId
              result.rank result.highlight result.document props.rest)
          else findSearchResultListItemExtensionElement rest result

/-- Specification-side predicate: a child node qualifies for a result when it
is a valid element, carries the extension component data, and its predicate is
present and accepts the result. -/
def extensionElementQualifies (node : ReactNode) (result : SearchResultItem) :
    Bool :=
  match node with
  | .text _ => false
  | .element _ none => false
  | .element _ (some d) =>
    match d.predicate with
    | none => false
    | some p => p result

/-- Specification-side rendering of a qualifying element: the wrapper div with
the element's handlers around its extension component applied to the result's
rank, highlight and document plus the element's remaining props. -/
def renderExtensionElement (node : ReactNode) (result : SearchResultItem) :
    Rendered :=
  match node with
  | .element props (some d) =>
    .extensionItem props.onClick props.onKeyDown d.componentId
      result.rank result.highlight result.document props.rest
  | _ => .null

/-- Embedding of `useSearchResultListItemExtensionElements`: keep exactly the
children that carry the extension component data
(`selectByComponentData({ key })`). -/
def useSearchResultListItemExtensionElements (children : List ReactNode) :
    List ReactNode :=
  children.filter fun node =>
    match node with
    | .element _ (some _) => true
    | _ => false

/-- Embedding of the render function returned by
`useSearchResultListItemExtensionRenderer`: the first matching extension
element, or a `DefaultResultListItem` with the result's rank, highlight and
document (`element ?? <DefaultResultListItem ... />`). -/
def useSearchResultListItemExtensionRenderer (children : List ReactNode)
    (result : SearchResultItem) : Rendered :=
  match findSearchResultListItemExtensionElement
      (useSearchResultListItemExtensionElements children) result with
  | some element => element
  | none =>
    .defaultResultListItem result.rank result.highlight result.document

/-- The options accepted by `createSearchResultListItemExtension`: the
extension name, its component (opaque id) and an optional predicate. -/
structure SearchResultListItemExtensionOptions where
  name : String
  componentId : Nat
  predicate : Option (SearchResultItem → Bool) := none

/-- The data a created extension attaches to elements rendered from it. -/
structure ReactExtensionData where
  name : String
  componentId : Nat
  predicate : SearchResultItem → Bool

/-- Embedding of `createSearchResultListItemExtension`: destructures the
options with `predicate = () => true` as default and registers the component
and predicate as the extension's component data. -/
def createSearchResultListItemExtension
    (options : SearchResultListItemExtensionOptions) : ReactExtensionData :=
  { name := options.name
    componentId := options.componentId
    predicate := options.predicate.getD fun _ => true }

/-- An element rendered from a created extension: a valid element whose
component data is the extension's component and predicate. -/
def extensionElementOf (ext : ReactExtensionData) (props : ElementProps) :
    ReactNode :=
  .element props (some { componentId := ext.componentId
                         predicate := some ext.predicate })

/- ----------------------------------------------------------------
   SearchResultGroup.tsx: SearchResultState, SearchResultApi,
   SearchResultContext, SearchResultComponent
   ---------------------------------------------------------------- -/

/-- What `SearchResultState` renders: either `SearchResultApi` with a query or
`SearchResultContext`, each receiving the child render function (opaque id). -/
inductive StateSourceRendered where
  | api (query : SearchQuery) (childrenId : Nat)
  | context (childrenId : Nat)
deriving Repr, DecidableEq

/-- Embedding of `SearchResultState`: when the optional `query` prop is set
(a defined object is truthy in JS, even when empty), render `SearchResultApi`
with that query, otherwise render `SearchResultContext`; the same children go
to either. -/
def SearchResultState (query : Option SearchQuery) (childrenId : Nat) :
    StateSourceRendered :=
  match query with
  | some q => .api q childrenId
  | none => .context childrenId

/-- The concrete argument `SearchResultApi` passes to `searchApi.query`:
term, types and filters are no longer optional, the rest of the query fields
pass through. -/
structure SearchQueryArg where
  term : String
  types : List String
  filters : List (String × String)
  pageCursor : Option String
deriving Repr, DecidableEq

/-- Embedding of the query normalization inside `SearchResultApi`:
`const { term = '', types = [], filters = {}, ...rest } = query` followed by
`searchApi.query({ ...rest, term, types, filters })`. -/
def searchResultApiQueryArg (query : SearchQuery) : SearchQueryArg :=
  { term := query.term.getD ""
    types := query.types.getD []
    filters := query.filters.getD []
    pageCursor := query.pageCursor }

/-- Modelled from the spec: the firing behaviour of the external react-use
`useAsync(fn, [query])` hook used by `SearchResultApi` is not part of this
repository; per the spec a data-bearing component "issues at most one
asynchronous fetch per input change". The hook runs its callback on the first
render and again exactly when the dependency differs from the previous
render's dependency (prop identity is modelled as value equality). Given the
previous dependency (none on mount) and the remaining renders' query props,
this returns, per render, whether the fetch fired. -/
def useAsyncFiresAux (prev : Option SearchQuery) :
    List SearchQuery → List Bool
  | [] => []
  | q :: rest =>
    (if prev = some q then false else true) :: useAsyncFiresAux (some q) rest

/-- Per-render fetch flags of `SearchResultApi` for a whole render trace,
starting from the initial mount. -/
def useAsyncFires (renders : List SearchQuery) : List Bool :=
  useAsyncFiresAux none renders

/-- Specification-side count, following the claim's words: one call for the
initial render plus exactly one per change of the query prop between
consecutive renders. -/
def specAdjacentChanges (prev : SearchQuery) : List SearchQuery → Nat
  | [] => 0
  | q :: rest => (if q = prev then 0 else 1) + specAdjacentChanges q rest

/-- Specification-side total number of asynchronous calls over a render
trace: none for an empty trace, otherwise one plus one per adjacent change. -/
def specAsyncCalls : List SearchQuery → Nat
  | [] => 0
  | q :: rest => 1 + specAdjacentChanges q rest

/-- The invocation of the child render function by a data component:
`children(state)` with the state passed through unchanged. -/
structure ChildInvocation where
  childrenId : Nat
  state : AsyncState
deriving Repr, DecidableEq

/-- Embedding of the return value of `SearchResultApi` (and of
`SearchResultContext`): the child render function applied to the async state,
unchanged. -/
def searchResultApiRender (childrenId : Nat) (state : AsyncState) :
    ChildInvocation :=
  { childrenId := childrenId, state := state }

/-- Children of `SearchResultComponent`: either a render function (opaque id)
or a list of element nodes. -/
inductive SearchResultChildren where
  | renderFn (fnId : Nat)
  | nodes (ns : List ReactNode)

/-- What `SearchResultComponent` can render for a given state. -/
inductive SearchResultRendered where
  | progress
  | errorPanel (title : String) (errorId : Nat)
  | noResults (componentId : Option Nat)
  | childrenFn (fnId : Nat) (value : SearchResultSet)
  | list (items : List Rendered)

/-- Embedding of the render-state function inside `SearchResultComponent`:
`Progress` while loading; a `ResponseErrorPanel` carrying the error when one
is present; the no-results component when the value is absent or has no
results; the child render function applied to the value when children is a
function; otherwise the results mapped through the extension renderer.
`noResultsComponent` is the optional override of the default `EmptyState`. -/
def SearchResultComponent (children : SearchResultChildren)
    (noResultsComponent : Option Nat) (state : AsyncState) :
    SearchResultRendered :=
  if state.loading then .progress
  else
    match state.error with
    | some e =>
      .errorPanel "Error encountered while fetching search results" e
    | none =>
      if (state.value.map fun v => v.results.length).getD 0 = 0 then
        .noResults noResultsComponent
      else
        match state.value with
        | none => .noResults noResultsComponent
        | some value =>
          match children with
          | .renderFn fnId => .childrenFn fnId value
          | .nodes ns =>
            .list (value.results.map
              (useSearchResultListItemExtensionRenderer ns))

/- ----------------------------------------------------------------
   SearchResultGroup.tsx: the "See all" link and qs.stringify
   ---------------------------------------------------------------- -/

/-- Key/value pairs produced by `qs.stringify({...}, { arrayFormat: 'brackets' })`
on the four-field object built by `SearchResultGroup`: an undefined field
contributes nothing; a defined term becomes one `query` pair; each list entry
of `types` becomes a `types[]` pair; each filter entry becomes a
`filters[<key>]` pair; a defined cursor becomes one `pageCursor` pair.
Percent-encoding of the final string is not modelled; the claims are about
which fields are serialized. -/
def qsStringifyPairs (term : Option String) (types : Option (List String))
    (filters : Option (List (String × String))) (pageCursor : Option String) :
    List (String × String) :=
  (match term with
   | none => []
   | some t => [("query", t)])
  ++ (match types with
      | none => []
      | some ts => ts.map fun t => ("types[]", t))
  ++ (match filters with
      | none => []
      | some fs => fs.map fun kv => ("filters[" ++ kv.1 ++ "]", kv.2))
  ++ (match pageCursor with
      | none => []
      | some c => [("pageCursor", c)])

/-- The pairs serialized into the "See all" link of `SearchResultGroup` for a
given `query` prop: `query?.term`, `query?.types`, `query?.filters`,
`query?.pageCursor`. -/
def searchResultGroupLinkPairs (query : Option SearchQuery) :
    List (String × String) :=
  qsStringifyPairs (query.bind fun q => q.term) (query.bind fun q => q.types)
    (query.bind fun q => q.filters) (query.bind fun q => q.pageCursor)

/-- Joins key/value pairs into a query string with `=` and `&`. -/
def joinQueryPairs : List (String × String) → String
  | [] => ""
  | [p] => p.1 ++ "=" ++ p.2
  | p :: rest => p.1 ++ "=" ++ p.2 ++ "&" ++ joinQueryPairs rest

/-- The `to` URL built by `SearchResultGroup`:
`/search?<serialized query fields>`. -/
def searchResultGroupTo (query : Option SearchQuery) : String :=
  "/search?" ++ joinQueryPairs (searchResultGroupLinkPairs query)

/- ----------------------------------------------------------------
   SearchResultGroup.tsx: SearchResultGroupLayout and SearchResultGroup
   ---------------------------------------------------------------- -/

/-- Props of `SearchResultGroupLayout` that affect its rendering branches.
Customizable renderers and components are opaque ids; `rendererId` stands for
the `renderResultItem` function, `noResultsComponent` for the override of the
default `EmptyState`. -/
structure SearchResultGroupLayoutProps where
  loading : Bool := false
  error : Option Nat := none
  title : String := ""
  linkTo : String := "/search"
  filterFields : Option (List String) := none
  resultItems : Option (List SearchResultItem) := none
  rendererId : Nat := 0
  noResultsComponent : Option Nat := none
deriving Repr, DecidableEq

/-- The body of the group list: the result items mapped through the item
renderer when there is at least one, else the no-results component. -/
inductive GroupBody where
  | resultItems (rendererId : Nat) (items : List SearchResultItem)
  | noResults (componentId : Option Nat)
deriving Repr, DecidableEq

/-- The subheader of the group list: icon/title, filter chips and the
"See all" link target. -/
structure GroupSubheader where
  title : String
  linkTo : String
  filterFields : List String
deriving Repr, DecidableEq

/-- What `SearchResultGroupLayout` renders. -/
inductive GroupRendered where
  | progress
  | errorPanel (title : String) (errorId : Nat)
  | list (subheader : GroupSubheader) (body : GroupBody)
deriving Repr, DecidableEq

/-- Whether a group rendering is the error panel. -/
def GroupRendered.isErrorPanel : GroupRendered → Bool
  | .errorPanel _ _ => true
  | _ => false

/-- Embedding of `SearchResultGroupLayout`: `Progress` while loading; then the
source's `if (error) { <ResponseErrorPanel ... />; }` block constructs the
panel as an expression statement without returning it, so rendering always
falls through to the `List`, whose body shows the result items when
`resultItems?.length` is truthy and the no-results component otherwise. -/
def SearchResultGroupLayout (props : SearchResultGroupLayoutProps) :
    GroupRendered :=
  if props.loading then .progress
  else
    .list
      { title := props.title
        linkTo := props.linkTo
        filterFields := props.filterFields.getD [] }
      (if (props.resultItems.map List.length).getD 0 = 0 then
        .noResults props.noResultsComponent
      else
        .resultItems props.rendererId (props.resultItems.getD []))

/-- Props of `SearchResultGroup` that affect the behaviour under study.
`linkToOverride` models a caller-supplied `linkProps.to`, which wins over the
computed URL in `{ to, ...linkProps }`; `rendererId` models a caller-supplied
`renderResultItem` (`none` means the extension-based default, id `0`). -/
structure SearchResultGroupProps where
  query : Option SearchQuery := none
  title : String := ""
  linkToOverride : Option String := none
  disableRenderingWithNoResults : Bool := false
  rendererId : Option Nat := none
  noResultsComponent : Option Nat := none
deriving Repr, DecidableEq

/-- Embedding of the child function `SearchResultGroup` passes to
`SearchResultState`: given the async state, return JS `null` (`none`) when
`!value?.results?.length && disableRenderingWithNoResults`, otherwise the
props it hands to `SearchResultGroupLayout` (loading and error passed
through, the computed link target, the filter field names
`Object.keys(query?.filters ?? {})`, and `value?.results` as the items). -/
def searchResultGroupChildren (props : SearchResultGroupProps)
    (state : AsyncState) : Option SearchResultGroupLayoutProps :=
  if (state.value.map fun v => v.results.length).getD 0 = 0
      && props.disableRenderingWithNoResults then
    none
  else
    some
      { loading := state.loading
        error := state.error
        title := props.title
        linkTo := props.linkToOverride.getD (searchResultGroupTo props.query)
        filterFields :=
          some (((props.query.bind fun q => q.filters).getD []).map Prod.fst)
        resultItems := state.value.map fun v => v.results
        rendererId := props.rendererId.getD 0
        noResultsComponent := props.noResultsComponent }

/-- Specification-side emptiness test, following the claim's words: the
fetched result set is absent or empty. -/
def resultSetAbsentOrEmpty : Option SearchResultSet → Bool
  | none => true
  | some s => s.results.isEmpty

/- ----------------------------------------------------------------
   Azure Functions overview widget
   ---------------------------------------------------------------- -/

/-- Catalog entity metadata: the optional annotations map. -/
structure EntityMetadata where
  name : String := ""
  annotations : Option (List (String × String)) := none
deriving Repr, DecidableEq

/-- A catalog entity, reduced to the metadata this widget reads. -/
structure Entity where
  metadata : EntityMetadata
deriving Repr, DecidableEq

/-- Modelled from the spec: the Azure Functions annotation key constant
(`AZURE_FUNCTIONS_ANNOTATION`) is defined in `useServiceEntityAnnotations`,
outside the provided sources; its exact value does not affect the claims. -/
def azureFunctionsAnnotationKey : String := "azure-functions"

/-- Embedding of `isAzureFunctionsAvailable`:
`entity?.metadata.annotations?.[AZURE_FUNCTIONS_ANNOTATION]`, the string
stored under the key, or `none` when the map or the key is absent. -/
def isAzureFunctionsAvailable (entity : Entity) : Option String :=
  entity.metadata.annotations.bind fun anns =>
    List.lookup azureFunctionsAnnotationKey anns

/-- JS truthiness of an optional string: `undefined` and `""` are falsy. -/
def truthyString : Option String → Bool
  | none => false
  | some s => s != ""

/-- What `AzureFunctionsOverviewWidget` renders. -/
inductive AzureWidgetRendered where
  | missingAnnotationEmptyState (annotationKey : String)
  | errorBoundaryOverview (entity : Entity)
deriving Repr, DecidableEq

/-- Embedding of `AzureFunctionsOverviewWidget`: when
`isAzureFunctionsAvailable(entity)` is falsy, the
`MissingAnnotationEmptyState` for the annotation key; otherwise the
`AzureFunctionsOverview` for the entity inside an `ErrorBoundary`. -/
def AzureFunctionsOverviewWidget (entity : Entity) : AzureWidgetRendered :=
  if !truthyString (isAzureFunctionsAvailable entity) then
    .missingAnnotationEmptyState azureFunctionsAnnotationKey
  else
    .errorBoundaryOverview entity

/-- Specification-side predicate, following the claim's words: the entity's
metadata annotations contain a truthy value under the Azure Functions
annotation key. -/
def entityHasTruthyAzureAnnotationValue (entity : Entity) : Bool :=
  match entity.metadata.annotations with
  | none => false
  | some anns =>
    match List.lookup azureFunctionsAnnotationKey anns with
    | none => false
    | some v => v != ""

/- ----------------------------------------------------------------
   Theorems
   ---------------------------------------------------------------- -/

/-- Claim C1: for every list of child elements and every search result,
`findSearchResultListItemExtensionElement` returns the rendered extension of
the first element in list order that is a valid element, carries the
extension component data, and whose predicate accepts the result; it returns
null when no element in the list qualifies (linear first-match dispatch). -/
theorem findSearchResultListItemExtensionElement_first_match
    (elements : List ReactNode) (result : SearchResultItem) :
    findSearchResultListItemExtensionElement elements result
      = (elements.find? fun e => extensionElementQualifies e result).map
          fun e => renderExtensionElement e result := by
  induction elements with
  | nil => rfl
  | cons node rest ih =>
    cases node with
    | text s =>
      simpa [findSearchResultListItemExtensionElement, List.find?,
        extensionElementQualifies] using ih
    | element props data =>
      cases data with
      | none =>
        simpa [findSearchResultListItemExtensionElement, List.find?,
          extensionElementQualifies] using ih
      | some d =>
        cases hp : d.predicate with
        | none =>
          simpa [findSearchResultListItemExtensionElement, List.find?,
            extensionElementQualifies, hp] using ih
        | some p =>
          by_cases h : p result
          · simp [findSearchResultListItemExtensionElement, List.find?,
              extensionElementQualifies, renderExtensionElement, hp, h]
          · simpa [findSearchResultListItemExtensionElement, List.find?,
              extensionElementQualifies, hp, h] using ih

/-- Helper: a value actually returned by the first-match search is never the
null element (it is always the clickable extension wrapper). -/
theorem findExtensionElement_not_null (elements : List ReactNode)
    (result : SearchResultItem) (v : Rendered)
    (h : findSearchResultListItemExtensionElement elements result = some v) :
    v.isNull = false := by
  induction elements with
  | nil => exact absurd h (by simp [findSearchResultListItemExtensionElement])
  | cons node rest ih =>
    cases node with
    | text s =>
      exact ih (by simpa [findSearchResultListItemExtensionElement] using h)
    | element props data =>
      cases data with
      | none =>
        exact ih (by simpa [findSearchResultListItemExtensionElement] using h)
      | some d =>
        cases hp : d.predicate with
        | none =>
          refine ih ?_
          simpa [findSearchResultListItemExtensionElement, hp] using h
        | some p =>
          by_cases hres : p result
          · have h2 := h
            simp only [findSearchResultListItemExtensionElement, hp,
              hres, if_pos] at h2
            cases h2
            rfl
          · refine ih ?_
            simpa [findSearchResultListItemExtensionElement, hp, hres] using h

/-- Claim C8: for every result, the render function returned by
`useSearchResultListItemExtensionRenderer` is never null: it returns the
first matching extension element if there is one, and otherwise falls back to
a `DefaultResultListItem` rendered with the result's rank, highlight and
document. -/
theorem useSearchResultListItemExtensionRenderer_total
    (children : List ReactNode) (result : SearchResultItem) :
    (useSearchResultListItemExtensionRenderer children result).isNull = false
    ∧ useSearchResultListItemExtensionRenderer children result
        = (findSearchResultListItemExtensionElement
            (useSearchResultListItemExtensionElements children) result).getD
            (Rendered.defaultResultListItem result.rank result.highlight
              result.document) := by
  constructor
  · cases h : findSearchResultListItemExtensionElement
        (useSearchResultListItemExtensionElements children) result with
    | none => simp [useSearchResultListItemExtensionRenderer, h, Rendered.isNull]
    | some v =>
      have hv := findExtensionElement_not_null _ _ _ h
      simpa [useSearchResultListItemExtensionRenderer, h] using hv
  · cases h : findSearchResultListItemExtensionElement
        (useSearchResultListItemExtensionElements children) result with
    | none => simp [useSearchResultListItemExtensionRenderer, h]
    | some v => simp [useSearchResultListItemExtensionRenderer, h]

/-- Claim C6: an extension created by `createSearchResultListItemExtension`
renders a result exactly when its predicate accepts it, and when the options
omit the predicate it defaults to a function returning true, so the extension
accepts every result. -/
theorem createSearchResultListItemExtension_predicate
    (options : SearchResultListItemExtensionOptions) (props : ElementProps)
    (result : SearchResultItem) :
    (findSearchResultListItemExtensionElement
        [extensionElementOf (createSearchResultListItemExtension options)
          props] result).isSome
      = (createSearchResultListItemExtension options).predicate result
    ∧ (createSearchResultListItemExtension
        { options with predicate := none }).predicate result = true := by
  constructor
  · by_cases h :
        (createSearchResultListItemExtension options).predicate result
    · simp [findSearchResultListItemExtensionElement, extensionElementOf, h]
    · simp [findSearchResultListItemExtensionElement, extensionElementOf,
        Bool.not_eq_true] at h ⊢
      simp [h]
  · rfl

/-- Claim C2: for every props value, `SearchResultState` sources its results
from the injected search API (rendering `SearchResultApi` with the given
query) when the optional query prop is defined, and from the ambient search
context (rendering `SearchResultContext`) when the query prop is absent,
passing the same child render function in both cases. -/
theorem searchResultState_selects_source (q : SearchQuery)
    (childrenId : Nat) :
    SearchResultState (some q) childrenId
        = StateSourceRendered.api q childrenId
    ∧ SearchResultState none childrenId
        = StateSourceRendered.context childrenId :=
  ⟨rfl, rfl⟩

/-- Claim C9: before invoking the search API, `SearchResultApi` replaces
missing query fields with defaults — term defaults to the empty string,
types to the empty list, filters to the empty object — and passes all
remaining query fields (the page cursor) through unchanged. -/
theorem searchResultApi_query_defaults (q : SearchQuery) :
    (searchResultApiQueryArg { q with term := none }).term = ""
    ∧ (∀ t, (searchResultApiQueryArg { q with term := some t }).term = t)
    ∧ (searchResultApiQueryArg { q with types := none }).types = []
    ∧ (∀ ts, (searchResultApiQueryArg { q with types := some ts }).types = ts)
    ∧ (searchResultApiQueryArg { q with filters := none }).filters = []
    ∧ (∀ fs,
        (searchResultApiQueryArg { q with filters := some fs }).filters = fs)
    ∧ (searchResultApiQueryArg q).pageCursor = q.pageCursor :=
  ⟨rfl, fun _ => rfl, rfl, fun _ => rfl, rfl, fun _ => rfl, rfl⟩

/-- Helper: from any fixed previous dependency value, the number of fetches
over the remaining renders equals the number of adjacent dependency
changes. -/
theorem useAsyncFiresAux_count (rest : List SearchQuery) :
    ∀ q : SearchQuery,
      (useAsyncFiresAux (some q) rest).count true
        = specAdjacentChanges q rest := by
  induction rest with
  | nil => intro q; rfl
  | cons q2 rest ih =>
    intro q
    by_cases h : q = q2
    · simp [useAsyncFiresAux, specAdjacentChanges, List.count_cons, h, ih]
    · simp [useAsyncFiresAux, specAdjacentChanges, List.count_cons, h,
        Ne.symm h, ih, Nat.add_comm]

/-- Helper: the fetch trace has one flag per render. -/
theorem useAsyncFiresAux_length (rest : List SearchQuery) :
    ∀ prev, (useAsyncFiresAux prev rest).length = rest.length := by
  induction rest with
  | nil => intro _; rfl
  | cons q rest ih => intro prev; simp [useAsyncFiresAux, ih]

/-- Claim C4: for every render trace of query props, `SearchResultApi` (whose
`useAsync(fn, [query])` firing behaviour is modelled from the spec) issues
exactly one asynchronous call to the injected search API's query method per
change of the query prop — one on mount and one per adjacent change — and it
passes the resulting loading/error/value state unchanged to its child render
function. -/
theorem searchResultApi_single_fetch_per_change
    (renders : List SearchQuery) :
    (useAsyncFires renders).count true = specAsyncCalls renders
    ∧ (useAsyncFires renders).length = renders.length
    ∧ ∀ (childrenId : Nat) (state : AsyncState),
        searchResultApiRender childrenId state
          = { childrenId := childrenId, state := state } := by
  refine ⟨?_, ?_, fun _ _ => rfl⟩
  · cases renders with
    | nil => rfl
    | cons q rest =>
      simp [useAsyncFires, useAsyncFiresAux, specAsyncCalls,
        List.count_cons, useAsyncFiresAux_count, Nat.add_comm]
  · exact useAsyncFiresAux_length renders none

/-- Claim C7: for every entity, `AzureFunctionsOverviewWidget` renders the
missing-annotation empty state if and only if the entity's metadata
annotations contain no truthy value under the Azure Functions annotation key;
otherwise it renders the functions overview for that entity inside an error
boundary. -/
theorem azureFunctionsOverviewWidget_gate (entity : Entity) :
    AzureFunctionsOverviewWidget entity
      = (if entityHasTruthyAzureAnnotationValue entity then
          AzureWidgetRendered.errorBoundaryOverview entity
        else
          AzureWidgetRendered.missingAnnotationEmptyState
            azureFunctionsAnnotationKey) := by
  have h : truthyString (isAzureFunctionsAvailable entity)
      = entityHasTruthyAzureAnnotationValue entity := by
    unfold truthyString isAzureFunctionsAvailable
      entityHasTruthyAzureAnnotationValue
    cases entity.metadata.annotations with
    | none => rfl
    | some anns =>
      cases List.lookup azureFunctionsAnnotationKey anns with
      | none => rfl
      | some v => rfl
  unfold AzureFunctionsOverviewWidget
  rw [h]
  cases hb : entityHasTruthyAzureAnnotationValue entity <;> simp

/-- Claim C10: `SearchResultGroup`'s child render function returns null
exactly when the `disableRenderingWithNoResults` prop is set and the fetched
result set is absent or empty — in particular also while the fetch is still
loading or after it errored with no value present, since the loading and
error flags are not consulted by the guard. -/
theorem searchResultGroup_disable_rendering_no_results
    (props : SearchResultGroupProps) (state : AsyncState) :
    (searchResultGroupChildren props state).isNone
      = (props.disableRenderingWithNoResults
          && resultSetAbsentOrEmpty state.value) := by
  cases hv : state.value with
  | none =>
    cases hd : props.disableRenderingWithNoResults <;>
      simp [searchResultGroupChildren, resultSetAbsentOrEmpty, hv, hd]
  | some s =>
    cases hr : s.results with
    | nil =>
      cases hd : props.disableRenderingWithNoResults <;>
        simp [searchResultGroupChildren, resultSetAbsentOrEmpty, hv, hr, hd]
    | cons a l =>
      simp [searchResultGroupChildren, resultSetAbsentOrEmpty, hv, hr,
        Bool.and_comm]

/-- Claim C3 (evaluation at the failing input): with loading false and a
supplied error, `SearchResultComponent` does return the
`ResponseErrorPanel` carrying that error, but `SearchResultGroupLayout`
renders the group list instead of the error panel: its error branch
constructs the panel expression without returning it, so rendering falls
through. -/
theorem searchResultGroupLayout_drops_error :
    SearchResultComponent (.renderFn 0) none
        { loading := false, error := some 1, value := none }
      = .errorPanel "Error encountered while fetching search results" 1
    ∧ SearchResultGroupLayout
        { loading := false, error := some 1, title := "group"
          linkTo := "/search", filterFields := none, resultItems := some []
          rendererId := 0, noResultsComponent := none }
      = .list { title := "group", linkTo := "/search", filterFields := [] }
          (.noResults none)
    ∧ (SearchResultGroupLayout
        { loading := false, error := some 1, title := "group"
          linkTo := "/search", filterFields := none, resultItems := some []
          rendererId := 0, noResultsComponent := none }).isErrorPanel
      = false :=
  ⟨rfl, rfl, rfl⟩

/-- Helper: a serialized filter key never collides with the term key. -/
theorem filtersKey_ne_query (k : String) :
    ("filters[" ++ k ++ "]") ≠ "query" := by
  intro h
  have h2 := congrArg String.data h
  rw [String.data_append, String.data_append] at h2
  have h3 : 'f' :: ("ilters[".data ++ (k.data ++ "]".data))
      = 'q' :: "uery".data := h2
  exact absurd (List.cons.inj h3).1 (by decide)

/-- Helper: a serialized filter key never collides with the types key. -/
theorem filtersKey_ne_types (k : String) :
    ("filters[" ++ k ++ "]") ≠ "types[]" := by
  intro h
  have h2 := congrArg String.data h
  rw [String.data_append, String.data_append] at h2
  have h3 : 'f' :: ("ilters[".data ++ (k.data ++ "]".data))
      = 't' :: "ypes[]".data := h2
  exact absurd (List.cons.inj h3).1 (by decide)

/-- Helper: a serialized filter key never collides with the page cursor
key. -/
theorem filtersKey_ne_pageCursor (k : String) :
    ("filters[" ++ k ++ "]") ≠ "pageCursor" := by
  intro h
  have h2 := congrArg String.data h
  rw [String.data_append, String.data_append] at h2
  have h3 : 'f' :: ("ilters[".data ++ (k.data ++ "]".data))
      = 'p' :: "ageCursor".data := h2
  exact absurd (List.cons.inj h3).1 (by decide)

/-- Helper: the term key is not of the filter-key form. -/
theorem query_ne_filtersKey (k : String) :
    "query" ≠ ("filters[" ++ k ++ "]") :=
  fun h => filtersKey_ne_query k h.symm

/-- Helper: the types key is not of the filter-key form. -/
theorem types_ne_filtersKey (k : String) :
    "types[]" ≠ ("filters[" ++ k ++ "]") :=
  fun h => filtersKey_ne_types k h.symm

/-- Helper: the page cursor key is not of the filter-key form. -/
theorem pageCursor_ne_filtersKey (k : String) :
    "pageCursor" ≠ ("filters[" ++ k ++ "]") :=
  fun h => filtersKey_ne_pageCursor k h.symm

/-- Helper: every key serialized by `qsStringifyPairs` is one of the four
search-query URL keys. -/
theorem qsStringifyPairs_keys (term : Option String)
    (types : Option (List String)) (filters : Option (List (String × String)))
    (pageCursor : Option String) :
    ∀ p ∈ qsStringifyPairs term types filters pageCursor,
      p.1 = "query" ∨ p.1 = "types[]" ∨ p.1 = "pageCursor"
        ∨ ∃ k, p.1 = "filters[" ++ k ++ "]" := by
  intro p hp
  simp only [qsStringifyPairs, List.mem_append] at hp
  rcases hp with ((hp | hp) | hp) | hp
  · cases term with
    | none => simp at hp
    | some t =>
      simp at hp
      rw [hp]
      exact Or.inl rfl
  · cases types with
    | none => simp at hp
    | some ts =>
      simp [List.mem_map] at hp
      obtain ⟨t, _, rfl⟩ := hp
      exact Or.inr (Or.inl rfl)
  · cases filters with
    | none => simp at hp
    | some fs =>
      simp [List.mem_map] at hp
      obtain ⟨k, v, _, rfl⟩ := hp
      exact Or.inr (Or.inr (Or.inr ⟨k, rfl⟩))
  · cases pageCursor with
    | none => simp at hp
    | some c =>
      simp at hp
      rw [hp]
      exact Or.inr (Or.inr (Or.inl rfl))

/-- Helper: with the term undefined, no `query` key is serialized. -/
theorem qsStringifyPairs_no_query (types : Option (List String))
    (filters : Option (List (String × String))) (pageCursor : Option String) :
    "query" ∉ (qsStringifyPairs none types filters pageCursor).map Prod.fst := by
  cases types <;> cases filters <;> cases pageCursor <;>
    simp [qsStringifyPairs, query_ne_filtersKey, filtersKey_ne_query]

/-- Helper: with the types undefined, no `types[]` key is serialized. -/
theorem qsStringifyPairs_no_types (term : Option String)
    (filters : Option (List (String × String))) (pageCursor : Option String) :
    "types[]" ∉ (qsStringifyPairs term none filters pageCursor).map Prod.fst := by
  cases term <;> cases filters <;> cases pageCursor <;>
    simp [qsStringifyPairs, types_ne_filtersKey, filtersKey_ne_types]

/-- Helper: with the filters undefined, no filter key is serialized. -/
theorem qsStringifyPairs_no_filters (term : Option String)
    (types : Option (List String)) (pageCursor : Option String) (k : String) :
    ("filters[" ++ k ++ "]")
      ∉ (qsStringifyPairs term types none pageCursor).map Prod.fst := by
  cases term <;> cases types <;> cases pageCursor <;>
    simp [qsStringifyPairs, filtersKey_ne_query, filtersKey_ne_types,
      filtersKey_ne_pageCursor]

/-- Helper: with the page cursor undefined, no `pageCursor` key is
serialized. -/
theorem qsStringifyPairs_no_pageCursor (term : Option String)
    (types : Option (List String))
    (filters : Option (List (String × String))) :
    "pageCursor" ∉ (qsStringifyPairs term types filters none).map Prod.fst := by
  cases term <;> cases types <;> cases filters <;>
    simp [qsStringifyPairs, pageCursor_ne_filtersKey, filtersKey_ne_pageCursor]

/-- Claim C5: for every query prop, the "See all" link URL built by
`SearchResultGroup` serializes exactly the four search-query fields — the
term under the URL key `query`, the types under `types[]`, the filters under
`filters[<key>]` and the page cursor under `pageCursor` — into the `/search`
query string, omitting fields that are undefined, and no other fields. -/
theorem searchResultGroup_see_all_link_fields (query : Option SearchQuery) :
    (∀ p ∈ searchResultGroupLinkPairs query,
        p.1 = "query" ∨ p.1 = "types[]" ∨ p.1 = "pageCursor"
          ∨ ∃ k, p.1 = "filters[" ++ k ++ "]")
    ∧ ((query.bind fun q => q.term) = none →
        "query" ∉ (searchResultGroupLinkPairs query).map Prod.fst)
    ∧ (∀ t, (query.bind fun q => q.term) = some t →
        ("query", t) ∈ searchResultGroupLinkPairs query)
    ∧ ((query.bind fun q => q.types) = none →
        "types[]" ∉ (searchResultGroupLinkPairs query).map Prod.fst)
    ∧ (∀ ts, (query.bind fun q => q.types) = some ts →
        ∀ t ∈ ts, ("types[]", t) ∈ searchResultGroupLinkPairs query)
    ∧ ((query.bind fun q => q.filters) = none →
        ∀ k, ("filters[" ++ k ++ "]")
          ∉ (searchResultGroupLinkPairs query).map Prod.fst)
    ∧ (∀ fs, (query.bind fun q => q.filters) = some fs →
        ∀ kv ∈ fs, ("filters[" ++ kv.1 ++ "]", kv.2)
          ∈ searchResultGroupLinkPairs query)
    ∧ ((query.bind fun q => q.pageCursor) = none →
        "pageCursor" ∉ (searchResultGroupLinkPairs query).map Prod.fst)
    ∧ (∀ c, (query.bind fun q => q.pageCursor) = some c →
        ("pageCursor", c) ∈ searchResultGroupLinkPairs query)
    ∧ searchResultGroupTo query
        = "/search?" ++ joinQueryPairs (searchResultGroupLinkPairs query) := by
  refine ⟨qsStringifyPairs_keys _ _ _ _, ?_, ?_, ?_, ?_, ?_, ?_, ?_, ?_, rfl⟩
  · intro h
    simp only [searchResultGroupLinkPairs, h]
    exact qsStringifyPairs_no_query _ _ _
  · intro t h
    simp only [searchResultGroupLinkPairs, h, qsStringifyPairs,
      List.mem_append]
    simp
  · intro h
    simp only [searchResultGroupLinkPairs, h]
    exact qsStringifyPairs_no_types _ _ _
  · intro ts h t ht
    simp only [searchResultGroupLinkPairs, h, qsStringifyPairs,
      List.mem_append, List.mem_map]
    exact Or.inl (Or.inl (Or.inr ⟨t, ht, rfl⟩))
  · intro h k
    simp only [searchResultGroupLinkPairs, h]
    exact qsStringifyPairs_no_filters _ _ _ k
  · intro fs h kv hkv
    simp only [searchResultGroupLinkPairs, h, qsStringifyPairs,
      List.mem_append, List.mem_map]
    exact Or.inl (Or.inr ⟨kv, hkv, rfl⟩)
  · intro h
    simp only [searchResultGroupLinkPairs, h]
    exact qsStringifyPairs_no_pageCursor _ _ _
  · intro c h
    simp only [searchResultGroupLinkPairs, h, qsStringifyPairs,
      List.mem_append]
    simp

/-- Witness for claim C5 at concrete inputs: a fully specified query
serializes its term under the `query` key, and a query without a term
serializes no `query` key. -/
theorem searchResultGroup_see_all_link_fields_witness :
    ("query", "docs") ∈ searchResultGroupLinkPairs
        (some { term := some "docs", types := some ["software-catalog"]
                filters := some [("kind", "Component")]
                pageCursor := some "c1" })
    ∧ "query" ∉ (searchResultGroupLinkPairs
        (some { types := some ["software-catalog"] })).map Prod.fst := by
  constructor
  · exact (searchResultGroup_see_all_link_fields
      (some { term := some "docs", types := some ["software-catalog"]
              filters := some [("kind", "Component")]
              pageCursor := some "c1" })).2.2.1 "docs" rfl
  · exact (searchResultGroup_see_all_link_fields
      (some { types := some ["software-catalog"] })).2.1 rfl

end BackstageSearch
